import Mathlib

/-!
Verification of the Tender Intelligence Platform's discovery-and-scoring
pipeline (`Tender_Intelligence_Platform.py`).  The Python source is shallowly
embedded: pure functions become Lean functions, the two external AI calls and
the per-site fetch are modelled as explicit outcome parameters
(`Option`/`Except`), and persistence is explicit state (a list of file
writes).  All definitions are translated from the source file; section
comments cite the Python class and method each definition embeds.
-/

namespace TIP

/-! ### Enumerations (`TenderStatus`, `OpportunityScore`, `ServiceArea`) -/

/-- `class TenderStatus(Enum)` with values `"open"`, `"closing_soon"`,
`"closed"`, `"awarded"`. -/
inductive TenderStatus where
  | OPEN
  | CLOSING_SOON
  | CLOSED
  | AWARDED
deriving DecidableEq, Repr

/-- `class OpportunityScore(Enum)` with values `"high"`, `"medium"`,
`"low"`, `"minimal"`. -/
inductive OpportunityScore where
  | HIGH
  | MEDIUM
  | LOW
  | MINIMAL
deriving DecidableEq, Repr

/-- `class ServiceArea(Enum)` with the eight advisory categories. -/
inductive ServiceArea where
  | IFRS17
  | PENSION_CONSULTING
  | ERM
  | ESG_CONSULTING
  | REGULATORY_COMPLIANCE
  | ACTUARIAL_SERVICES
  | INVESTMENT_CONSULTING
  | GOVERNANCE_RISK
deriving DecidableEq, Repr

/-- Iteration order of the `self.service_keywords` dict in
`ActuarialTenderAnalyzer.__init__` (Python dicts preserve insertion order). -/
def serviceAreasList : List ServiceArea :=
  [.IFRS17, .PENSION_CONSULTING, .ERM, .ESG_CONSULTING, .REGULATORY_COMPLIANCE,
   .ACTUARIAL_SERVICES, .INVESTMENT_CONSULTING, .GOVERNANCE_RISK]

/-- The `self.service_keywords` dict of `ActuarialTenderAnalyzer.__init__`:
each service area's keyword list, verbatim from the source. -/
def serviceKeywords : ServiceArea → List String
  | .IFRS17 =>
      ["IFRS 17", "ifrs17", "insurance contracts", "financial reporting",
       "contract boundaries", "CSM", "risk adjustment", "onerous contracts",
       "premium allocation approach", "general measurement model"]
  | .PENSION_CONSULTING =>
      ["pension", "retirement", "actuarial valuation", "pension scheme",
       "pension fund", "retirement solutions", "defined benefit", "defined contribution",
       "pension regulations", "pension audit", "pension risk", "retirement planning"]
  | .ERM =>
      ["enterprise risk management", "ERM", "risk framework", "risk appetite",
       "risk modelling", "risk assessment", "risk quantification", "stress testing",
       "scenario analysis", "risk governance", "risk based capital", "solvency"]
  | .ESG_CONSULTING =>
      ["ESG", "sustainability", "climate risk", "environmental risk",
       "social responsibility", "governance", "sustainable finance",
       "climate change", "carbon footprint", "green finance"]
  | .REGULATORY_COMPLIANCE =>
      ["regulatory compliance", "regulatory affairs", "compliance audit",
       "statutory reporting", "regulatory policy", "financial regulation",
       "prudential regulation", "capital requirements", "regulatory framework"]
  | .ACTUARIAL_SERVICES =>
      ["actuarial", "actuarial services", "actuarial analysis", "actuarial valuation",
       "actuarial consulting", "actuarial audit", "reserving", "pricing",
       "product development", "embedded value", "financial condition"]
  | .INVESTMENT_CONSULTING =>
      ["investment consulting", "asset liability matching", "investment policy",
       "portfolio management", "investment strategy", "asset allocation",
       "investment risk", "market risk", "ALM", "asset liability"]
  | .GOVERNANCE_RISK =>
      ["governance", "corporate governance", "risk governance", "board advisory",
       "risk committee", "audit committee", "governance framework",
       "risk culture", "governance training", "risk oversight"]

/-- `self.all_keywords`: the keyword lists flattened in dict order
(`for keywords_list in self.service_keywords.values(): self.all_keywords.extend(...)`). -/
def allKeywords : List String := (serviceAreasList.map serviceKeywords).flatten

/-! ### Substring matching (Python's `in` operator on strings) -/

/-- Python's `needle in hay` on lists of characters: either `needle` is a
prefix of `hay` or it occurs in the tail.  The empty needle matches. -/
def seqIn (needle : List Char) : List Char → Bool
  | [] => needle.isEmpty
  | c :: t => needle.isPrefixOf (c :: t) || seqIn needle t

/-- Python's substring test `needle in hay` on strings. -/
def strIn (needle hay : String) : Bool := seqIn needle.toList hay.toList

/-- Python's `str.lower()`, for the ASCII texts and keywords the platform
handles (character-wise lowercasing). -/
def strLower (s : String) : String := String.mk (s.toList.map Char.toLower)

/-! ### `ActuarialTenderAnalyzer` -/

/-- Loop body test of `_find_keywords`: `keyword.lower() in text_lower`.
`textLower` is the already-lowercased text. -/
def matchesKeyword (textLower : String) (kw : String) : Bool :=
  strIn (strLower kw) textLower

/-- `ActuarialTenderAnalyzer._find_keywords`: lowercase the text, then append
every taxonomy keyword whose lowercase form occurs in it, in `all_keywords`
order. -/
def findKeywords (text : String) : List String :=
  let textLower := strLower text
  allKeywords.foldl (fun acc kw => if matchesKeyword textLower kw then acc ++ [kw] else acc) []

/-- `ActuarialTenderAnalyzer._identify_service_areas`: for each service area
(dict order), if some matched keyword is in that area's list, append the area
(guarded by the `service_area not in matched_areas` check); the inner `break`
makes one hit per area suffice. -/
def identifyServiceAreas (keywords : List String) : List ServiceArea :=
  serviceAreasList.foldl
    (fun acc area =>
      if keywords.any (fun kw => (serviceKeywords area).contains kw) then
        if acc.contains area then acc else acc ++ [area]
      else acc) []

/-- `keyword_score = min(len(keywords) * 10, 60)` in
`_calculate_opportunity_score`. -/
def keywordScore (n : Nat) : Int := min ((n : Int) * 10) 60

/-- `context_score = max(0, min(40, context_score))`: the clamp applied to a
successful context call result. -/
def clampContext (x : Int) : Int := max 0 (min 40 x)

/-- The context-scoring call of `_calculate_opportunity_score`: `some x`
models a call that returned the integer `x` (then clamped to `[0,40]`),
`none` models any failure of the `try` block (exception, non-numeric
content), which the bare `except` replaces with the default `20`. -/
def contextScore : Option Int → Int
  | some x => clampContext x
  | none => 20

/-- The threshold cascade at the end of `_calculate_opportunity_score`:
`>= 80` HIGH, `>= 50` MEDIUM, `>= 20` LOW, else MINIMAL. -/
def bucketTotal (t : Int) : OpportunityScore :=
  if 80 ≤ t then .HIGH
  else if 50 ≤ t then .MEDIUM
  else if 20 ≤ t then .LOW
  else .MINIMAL

/-- `ActuarialTenderAnalyzer._calculate_opportunity_score`, with the external
call's outcome passed explicitly (`ctxResult`). -/
def calcOpportunityScore (keywords : List String) (ctxResult : Option Int) : OpportunityScore :=
  bucketTotal (keywordScore keywords.length + contextScore ctxResult)

/-- The value of the Python expression
`area.value.replace("_", " ").title()` used by `_generate_ai_analysis` for
each of the eight `ServiceArea` members. -/
def areaDisplay : ServiceArea → String
  | .IFRS17 => "Ifrs17"
  | .PENSION_CONSULTING => "Pension Consulting"
  | .ERM => "Enterprise Risk Management"
  | .ESG_CONSULTING => "Esg Consulting"
  | .REGULATORY_COMPLIANCE => "Regulatory Compliance"
  | .ACTUARIAL_SERVICES => "Actuarial Services"
  | .INVESTMENT_CONSULTING => "Investment Consulting"
  | .GOVERNANCE_RISK => "Governance Risk"

/-- Python's `", ".join(parts)`. -/
def joinCommaSpace : List String → String
  | [] => ""
  | [x] => x
  | x :: xs => x ++ ", " ++ joinCommaSpace xs

/-- `service_areas_text` in `_generate_ai_analysis`. -/
def serviceAreasText (areas : List ServiceArea) : String :=
  joinCommaSpace (areas.map areaDisplay)

/-- The `except` branch of `_generate_ai_analysis`:
`f"Analysis error occurred. Manual review required. Matched areas: {service_areas_text}"`. -/
def fallbackAnalysis (areas : List ServiceArea) : String :=
  "Analysis error occurred. Manual review required. Matched areas: " ++ serviceAreasText areas

/-- `ActuarialTenderAnalyzer._generate_ai_analysis`, with the external call's
outcome passed explicitly: `some s` models the model's returned message
content, `none` any exception of the `try` block, which the handler replaces
with the fixed fallback string. -/
def generateAiAnalysis (callResult : Option String) (areas : List ServiceArea) : String :=
  match callResult with
  | some s => s
  | none => fallbackAnalysis areas

/-- `ActuarialTenderAnalyzer.analyze_tender`: find keywords in
`tender_text + " " + tender_title`, derive service areas, score, and generate
the narrative.  The `tender_url` argument is accepted and unused, as in the
source.  The two external calls' outcomes are explicit parameters. -/
def analyzeTender (tenderText tenderTitle _tenderUrl : String)
    (ctxResult : Option Int) (narrResult : Option String) :
    OpportunityScore × List ServiceArea × String :=
  let matched := findKeywords (tenderText ++ " " ++ tenderTitle)
  let areas := identifyServiceAreas matched
  let score := calcOpportunityScore matched ctxResult
  let analysis := generateAiAnalysis narrResult areas
  (score, areas, analysis)

/-! ### Timestamps

`datetime` values are embedded by their components.  `pyStrDT` is Python's
`str(datetime)` (the serialization that `json.dump(..., default=str)`
applies), `fromisoformat` is `datetime.fromisoformat` restricted to the
strings `str(datetime)` emits, and `strftimeYmd` is `strftime('%Y%m%d')`. -/

/-- A `datetime` value, by components. -/
structure DT where
  year : Nat
  month : Nat
  day : Nat
  hour : Nat
  minute : Nat
  second : Nat
  microsecond : Nat
deriving DecidableEq, Repr

/-- Zero-pad to two digits (`%02d`). -/
def pad2 (n : Nat) : String := if n < 10 then "0" ++ toString n else toString n

/-- Zero-pad to four digits (`%04d`). -/
def pad4 (n : Nat) : String :=
  if n < 10 then "000" ++ toString n
  else if n < 100 then "00" ++ toString n
  else if n < 1000 then "0" ++ toString n
  else toString n

/-- Zero-pad to six digits (`%06d`). -/
def pad6 (n : Nat) : String :=
  if n < 10 then "00000" ++ toString n
  else if n < 100 then "0000" ++ toString n
  else if n < 1000 then "000" ++ toString n
  else if n < 10000 then "00" ++ toString n
  else if n < 100000 then "0" ++ toString n
  else toString n

/-- Python's `str(datetime)`: `YYYY-MM-DD HH:MM:SS`, with `.ffffff` appended
when the microsecond field is non-zero. -/
def pyStrDT (d : DT) : String :=
  pad4 d.year ++ "-" ++ pad2 d.month ++ "-" ++ pad2 d.day ++ " "
    ++ pad2 d.hour ++ ":" ++ pad2 d.minute ++ ":" ++ pad2 d.second
    ++ (if d.microsecond = 0 then "" else "." ++ pad6 d.microsecond)

/-- `timestamp.strftime('%Y%m%d')` used to build the save filename. -/
def strftimeYmd (d : DT) : String := pad4 d.year ++ pad2 d.month ++ pad2 d.day

/-- The numeric value of a decimal digit character. -/
def digitVal (c : Char) : Option Nat :=
  if c.isDigit then some (c.toNat - 48) else none

/-- Parse two decimal digit characters. -/
def parse2 (a b : Char) : Option Nat := do
  pure ((← digitVal a) * 10 + (← digitVal b))

/-- Parse four decimal digit characters. -/
def parse4 (a b c d : Char) : Option Nat := do
  pure ((← parse2 a b) * 100 + (← parse2 c d))

/-- Build a `DT` from parsed components, validating ranges as
`datetime.fromisoformat` does (days are only bounded by 31 here; the
month-length table is not modelled, which matters for no string produced by
`str(datetime)` on a valid date). -/
def mkDT (y mo d h mi s us : Nat) : Option DT :=
  if 1 ≤ mo ∧ mo ≤ 12 ∧ 1 ≤ d ∧ d ≤ 31 ∧ h < 24 ∧ mi < 60 ∧ s < 60 ∧ us < 1000000 then
    some ⟨y, mo, d, h, mi, s, us⟩
  else none

/-- `datetime.fromisoformat` on the shapes `str(datetime)` emits:
`YYYY-MM-DD<sep>HH:MM:SS` with an optional `.fff` or `.ffffff` fraction
(any single separator character is accepted at position 10). -/
def fromisoformat (str : String) : Option DT :=
  match str.toList with
  | [y1, y2, y3, y4, '-', mo1, mo2, '-', d1, d2, _,
     h1, h2, ':', mi1, mi2, ':', s1, s2] => do
      mkDT (← parse4 y1 y2 y3 y4) (← parse2 mo1 mo2) (← parse2 d1 d2)
        (← parse2 h1 h2) (← parse2 mi1 mi2) (← parse2 s1 s2) 0
  | [y1, y2, y3, y4, '-', mo1, mo2, '-', d1, d2, _,
     h1, h2, ':', mi1, mi2, ':', s1, s2, '.', f1, f2, f3] => do
      mkDT (← parse4 y1 y2 y3 y4) (← parse2 mo1 mo2) (← parse2 d1 d2)
        (← parse2 h1 h2) (← parse2 mi1 mi2) (← parse2 s1 s2)
        ((← parse2 f1 f2) * 100 + (← digitVal f3) * 1000)
  | [y1, y2, y3, y4, '-', mo1, mo2, '-', d1, d2, _,
     h1, h2, ':', mi1, mi2, ':', s1, s2, '.', f1, f2, f3, f4, f5, f6] => do
      mkDT (← parse4 y1 y2 y3 y4) (← parse2 mo1 mo2) (← parse2 d1 d2)
        (← parse2 h1 h2) (← parse2 mi1 mi2) (← parse2 s1 s2)
        ((← parse4 f1 f2 f3 f4) * 100 + (← parse2 f5 f6))
  | _ => none

/-! ### Data model (`TenderSite`, `TenderOpportunity`) -/

/-- The `TenderSite` dataclass: one monitored tender/procurement website. -/
structure TenderSite where
  url : String
  name : String
  country : String
  sector : String
  search_params : List (String × String)
  requires_login : Bool := false
  check_frequency : Nat := 24
  last_checked : Option DT := none
  active : Bool := true
deriving DecidableEq, Repr

/-- The `TenderOpportunity` dataclass.  `contact_information` (a Python
dict of strings) is embedded as an association list. -/
structure TenderOpportunity where
  title : String
  description : String
  tender_id : String
  source_site : String
  url : String
  client_organization : String
  publication_date : DT
  closing_date : Option DT
  estimated_value : String
  location : String
  status : TenderStatus
  service_areas_matched : List ServiceArea
  keywords_matched : List String
  opportunity_score : OpportunityScore
  ai_analysis : String
  recommended_team : List String
  competition_level : String
  win_probability : String
  submission_requirements : List String
  contact_information : List (String × String)
  documents_available : List String
  timestamp : DT
deriving DecidableEq, Repr

/-! ### Opportunity store (`_save_opportunity` / `_load_recent_opportunities`)

`_save_opportunity` writes `json.dump(asdict(opportunity), f, indent=2,
default=str)`.  `asdict` leaves enum and datetime values unconverted, so
`json.dump` falls back to `default=str` for them: a datetime becomes
`str(datetime)` and an enum member becomes `str(member)`, which for a Python
`Enum` is `"ClassName.MEMBER_NAME"` — not the member's `.value`. -/

/-- `str(TenderStatus.X)` as produced by `default=str` during save. -/
def pyStrStatus : TenderStatus → String
  | .OPEN => "TenderStatus.OPEN"
  | .CLOSING_SOON => "TenderStatus.CLOSING_SOON"
  | .CLOSED => "TenderStatus.CLOSED"
  | .AWARDED => "TenderStatus.AWARDED"

/-- `str(OpportunityScore.X)` as produced by `default=str` during save. -/
def pyStrScore : OpportunityScore → String
  | .HIGH => "OpportunityScore.HIGH"
  | .MEDIUM => "OpportunityScore.MEDIUM"
  | .LOW => "OpportunityScore.LOW"
  | .MINIMAL => "OpportunityScore.MINIMAL"

/-- `str(ServiceArea.X)` as produced by `default=str` during save. -/
def pyStrArea : ServiceArea → String
  | .IFRS17 => "ServiceArea.IFRS17"
  | .PENSION_CONSULTING => "ServiceArea.PENSION_CONSULTING"
  | .ERM => "ServiceArea.ERM"
  | .ESG_CONSULTING => "ServiceArea.ESG_CONSULTING"
  | .REGULATORY_COMPLIANCE => "ServiceArea.REGULATORY_COMPLIANCE"
  | .ACTUARIAL_SERVICES => "ServiceArea.ACTUARIAL_SERVICES"
  | .INVESTMENT_CONSULTING => "ServiceArea.INVESTMENT_CONSULTING"
  | .GOVERNANCE_RISK => "ServiceArea.GOVERNANCE_RISK"

/-- `TenderStatus(v)`: look a status up by its `.value`; a failed lookup
(Python `ValueError`) is `none`. -/
def statusOfValue (s : String) : Option TenderStatus :=
  if s = "open" then some .OPEN
  else if s = "closing_soon" then some .CLOSING_SOON
  else if s = "closed" then some .CLOSED
  else if s = "awarded" then some .AWARDED
  else none

/-- `OpportunityScore(v)`: look a score up by its `.value`. -/
def scoreOfValue (s : String) : Option OpportunityScore :=
  if s = "high" then some .HIGH
  else if s = "medium" then some .MEDIUM
  else if s = "low" then some .LOW
  else if s = "minimal" then some .MINIMAL
  else none

/-- `ServiceArea(v)`: look a service area up by its `.value`. -/
def areaOfValue (s : String) : Option ServiceArea :=
  if s = "ifrs17" then some .IFRS17
  else if s = "pension_consulting" then some .PENSION_CONSULTING
  else if s = "enterprise_risk_management" then some .ERM
  else if s = "esg_consulting" then some .ESG_CONSULTING
  else if s = "regulatory_compliance" then some .REGULATORY_COMPLIANCE
  else if s = "actuarial_services" then some .ACTUARIAL_SERVICES
  else if s = "investment_consulting" then some .INVESTMENT_CONSULTING
  else if s = "governance_risk" then some .GOVERNANCE_RISK
  else none

/-- The JSON object `_save_opportunity` writes: every field of
`asdict(opportunity)` after `json.dump`'s `default=str` fallback (datetimes
and enum members as strings, everything else natively). -/
structure SerializedOpp where
  title : String
  description : String
  tender_id : String
  source_site : String
  url : String
  client_organization : String
  publication_date : String
  closing_date : Option String
  estimated_value : String
  location : String
  status : String
  service_areas_matched : List String
  keywords_matched : List String
  opportunity_score : String
  ai_analysis : String
  recommended_team : List String
  competition_level : String
  win_probability : String
  submission_requirements : List String
  contact_information : List (String × String)
  documents_available : List String
  timestamp : String
deriving DecidableEq, Repr

/-- The body written by `ActuarialTenderMonitor._save_opportunity`. -/
def serializeOpp (o : TenderOpportunity) : SerializedOpp where
  title := o.title
  description := o.description
  tender_id := o.tender_id
  source_site := o.source_site
  url := o.url
  client_organization := o.client_organization
  publication_date := pyStrDT o.publication_date
  closing_date := o.closing_date.map pyStrDT
  estimated_value := o.estimated_value
  location := o.location
  status := pyStrStatus o.status
  service_areas_matched := o.service_areas_matched.map pyStrArea
  keywords_matched := o.keywords_matched
  opportunity_score := pyStrScore o.opportunity_score
  ai_analysis := o.ai_analysis
  recommended_team := o.recommended_team
  competition_level := o.competition_level
  win_probability := o.win_probability
  submission_requirements := o.submission_requirements
  contact_information := o.contact_information
  documents_available := o.documents_available
  timestamp := pyStrDT o.timestamp

/-- Python's `tender_id.replace('/', '_')` (single-character replacement). -/
def replaceSlashes (s : String) : String :=
  String.mk (s.toList.map (fun c => if c = '/' then '_' else c))

/-- The filename `_save_opportunity` uses:
`f"{timestamp.strftime('%Y%m%d')}_{tender_id.replace('/', '_')}.json"`. -/
def saveFilename (o : TenderOpportunity) : String :=
  strftimeYmd o.timestamp ++ "_" ++ replaceSlashes o.tender_id ++ ".json"

/-- The per-record body of `_load_recent_opportunities`: convert the enum
fields back via value lookup (in source order: status, score, service areas)
and the timestamps via `fromisoformat`; any conversion failure (a raised
`ValueError`) makes the record `none`, which the caller's `except` block
turns into a skip. -/
def loadOpportunity (j : SerializedOpp) : Option TenderOpportunity := do
  let st ← statusOfValue j.status
  let sc ← scoreOfValue j.opportunity_score
  let areas ← j.service_areas_matched.mapM areaOfValue
  let ts ← fromisoformat j.timestamp
  let cd ← match j.closing_date with
    | none => some none
    | some s => (fromisoformat s).map some
  let pd ← fromisoformat j.publication_date
  some
    { title := j.title, description := j.description, tender_id := j.tender_id,
      source_site := j.source_site, url := j.url,
      client_organization := j.client_organization,
      publication_date := pd, closing_date := cd,
      estimated_value := j.estimated_value, location := j.location,
      status := st, service_areas_matched := areas,
      keywords_matched := j.keywords_matched, opportunity_score := sc,
      ai_analysis := j.ai_analysis, recommended_team := j.recommended_team,
      competition_level := j.competition_level,
      win_probability := j.win_probability,
      submission_requirements := j.submission_requirements,
      contact_information := j.contact_information,
      documents_available := j.documents_available, timestamp := ts }

/-- One date iteration of `_load_recent_opportunities`: the glob
`{date_str}_*.json` selects store files by prefix and suffix; each selected
file is loaded, and a failing load is skipped. -/
def loadFilesForDate (store : List (String × SerializedOpp)) (dateStr : String) :
    List TenderOpportunity :=
  store.foldl
    (fun acc f =>
      if f.1.startsWith (dateStr ++ "_") && f.1.endsWith ".json" then
        match loadOpportunity f.2 with
        | some o => acc ++ [o]
        | none => acc
      else acc) []

/-- `ActuarialTenderMonitor._load_recent_opportunities` over an explicit
store (filename/content pairs): iterate the `%Y%m%d` strings of the date
range (`start_date + timedelta(days=day)` for `day` in `0..days_back`;
calendar arithmetic itself is outside the embedding) and collect each day's
loadable records. -/
def loadRecentOpportunities (store : List (String × SerializedOpp))
    (dateStrs : List String) : List TenderOpportunity :=
  (dateStrs.map (loadFilesForDate store)).flatten

/-! ### Monitor orchestrator (`ActuarialTenderMonitor.monitor_all_sites`)

The per-site pipeline is driven inside one `try` block per site.  The
scraper's output for a site is modelled as the list of records it produced,
each paired with the outcomes of that record's two external AI calls; a
site-level exception anywhere in the `try` block is modelled as an
`Except.error`.  `monitor_all_sites` is total on this input — a failing site
is caught by the `except` handler and contributes nothing. -/

/-- The monitor's keyword list `self.primary_keywords`. -/
def monitorPrimaryKeywords : List String :=
  ["IFRS 17", "actuarial services", "risk management", "pension consulting",
   "asset liability matching", "enterprise risk management", "Insurance Advisory",
   "ESG Consulting"]

/-- The monitor's keyword list `self.extended_keywords`. -/
def monitorExtendedKeywords : List String :=
  ["Financial and Regulatory Affairs", "Regulatory Policy and Strategy",
   "Regulatory Compliance", "Liaison with Regulators", "Mergers, Demergers and Acquisitions",
   "Entry into New Markets", "Corporate Governance and Training", "Market Surveys",
   "Enterprise Risk Management", "Enterprise Risk Management Framework Gap Analysis",
   "Quantification of Risk including Risk Modelling", "Risk Appetite",
   "Risk based Capital Management", "Actuarial Services", "Financial Condition Reports",
   "Product Development", "Embedded value calculation", "Capital Management Report",
   "Investment Policy Statement", "Pension Consulting", "Financial Reporting",
   "Insurance Regulation", "Actuarial Analysis", "Stress Testing",
   "Sustainability Consulting", "Governance, Risk & Compliance", "Data Protection and Privacy",
   "Pension Scheme Design", "Actuarial Valuation", "Claims Management",
   "Reinsurance Consulting", "Underwriting Solutions", "Insurance Product Design",
   "Reserving Methodology", "Risk Assessment Tools", "Healthcare Actuarial Consulting",
   "Investment Consulting", "Pension Fund Management", "Retirement Solutions",
   "Actuarial Audit", "Compliance Audit", "Statutory Reporting"]

/-- `self.all_keywords = self.primary_keywords + self.extended_keywords`. -/
def monitorAllKeywords : List String := monitorPrimaryKeywords ++ monitorExtendedKeywords

/-- `TenderScraper._contains_relevant_keywords`: case-insensitive substring
test of any keyword against the text. -/
def containsRelevantKeywords (text : String) (keywords : List String) : Bool :=
  keywords.any (fun kw => strIn (strLower kw) (strLower text))

/-- One scraped record together with the outcomes of its two external AI
calls (context scoring and narrative generation). -/
abbrev ScrapedItem := TenderOpportunity × Option Int × Option String

/-- One site's scan outcome: `ok` carries the scraper's records with their
AI-call outcomes; `error` models an exception inside the per-site `try`
block of `monitor_all_sites`. -/
abbrev SiteOutcome := Except String (List ScrapedItem)

/-- The analysis loop body of `monitor_all_sites` for one record: run
`analyze_tender` on `description + " " + title` (with `title` as the title
argument), store score, service areas and narrative, then recompute
`keywords_matched` from `title + " " + description` — note the reversed
concatenation order relative to the analysis text. -/
def analyzeRecord (o : TenderOpportunity) (ctx : Option Int) (narr : Option String) :
    TenderOpportunity :=
  let r := analyzeTender (o.description ++ " " ++ o.title) o.title o.url ctx narr
  { o with
      opportunity_score := r.1
      service_areas_matched := r.2.1
      ai_analysis := r.2.2
      keywords_matched := findKeywords (o.title ++ " " ++ o.description) }

/-- The relevance filter of `monitor_all_sites`:
`opp.opportunity_score in [OpportunityScore.HIGH, OpportunityScore.MEDIUM]`. -/
def isRelevantScore (o : TenderOpportunity) : Bool :=
  [OpportunityScore.HIGH, OpportunityScore.MEDIUM].contains o.opportunity_score

/-- One successful site's contribution: analyze every scraped record, then
keep the MEDIUM/HIGH ones. -/
def siteQualifying (payload : List ScrapedItem) : List TenderOpportunity :=
  (payload.map (fun t => analyzeRecord t.1 t.2.1 t.2.2)).filter isRelevantScore

/-- One iteration of the site loop of `monitor_all_sites`: skip inactive
sites (`if not site.active: continue`), extend the accumulator with the
site's qualifying records on success, and leave it unchanged when the `try`
block failed (the `except` handler only logs). -/
def monitorStep (acc : List TenderOpportunity) (s : TenderSite × SiteOutcome) :
    List TenderOpportunity :=
  if s.1.active = false then acc
  else
    match s.2 with
    | Except.ok payload => acc ++ siteQualifying payload
    | Except.error _ => acc

/-- `ActuarialTenderMonitor.monitor_all_sites`: the site loop, returning
`all_opportunities`. -/
def monitorAllSites (sites : List (TenderSite × SiteOutcome)) : List TenderOpportunity :=
  sites.foldl monitorStep []

/-- `monitor_all_sites` including its save loop: after the site loop, every
returned opportunity is persisted via `_save_opportunity`; the second
component is the resulting list of file writes. -/
def runScan (sites : List (TenderSite × SiteOutcome)) :
    List TenderOpportunity × List (String × SerializedOpp) :=
  let opps := monitorAllSites sites
  (opps, opps.foldl (fun st o => st ++ [(saveFilename o, serializeOpp o)]) [])

/-! ### Extractor and scrapers (`TenderScraper`) -/

/-- Check that a string starts with a prefix (Python `str.startswith`). -/
def strStartsWith (s pre : String) : Bool := pre.toList.isPrefixOf s.toList

/-- One listing element, by the field texts its selectors yield: the results
of `_extract_text` for each selector group (empty string when no selector
matched), the closing date as parsed by `_extract_date` (the strptime format
cascade itself is external to the embedding; `none` when absent or
unparseable), the first link's href, and the run-dependent value of Python's
`hash(title)` used for the fallback id. -/
structure RawElement where
  titleText : String
  descriptionText : String
  idText : String
  closingDate : Option DT
  valueText : String
  locationText : String
  linkHref : Option String
  titleHash : Int
deriving DecidableEq, Repr

/-- `urljoin(site.url, tender_url)` for an absolute-path reference: the
base's scheme and network location followed by the path. -/
def urljoinAbsPath (base href : String) : String :=
  match base.splitOn "://" with
  | [scheme, rest] => scheme ++ "://" ++ (rest.splitOn "/").headD "" ++ href
  | _ => href

/-- `TenderScraper._extract_tender_info`: an element without a title yields
no record (`if not title: return None`); otherwise the record is built with
`status=TenderStatus.OPEN` ("Will be determined later"),
`opportunity_score=OpportunityScore.LOW`, empty classification lists,
`title[:200]`, `description[:1000]`, the fallback id `f"AUTO_{hash(title)}"`
when no id text was found, `location or site.country`, and both
`publication_date` and `timestamp` set to `datetime.now()` (the `now`
argument).  The surrounding `try` block's failure case (an exception while
extracting, also yielding `None`) is outside this pure model. -/
def extractTenderInfo (el : RawElement) (site : TenderSite) (now : DT) :
    Option TenderOpportunity :=
  if el.titleText = "" then none
  else
    let tenderId := if el.idText = "" then "AUTO_" ++ toString el.titleHash else el.idText
    let url0 := match el.linkHref with
      | some href => href
      | none => site.url
    let tenderUrl := if strStartsWith url0 "/" then urljoinAbsPath site.url url0 else url0
    some
      { title := String.mk (el.titleText.toList.take 200),
        description := String.mk (el.descriptionText.toList.take 1000),
        tender_id := tenderId,
        source_site := site.name,
        url := tenderUrl,
        client_organization := site.name,
        publication_date := now,
        closing_date := el.closingDate,
        estimated_value := el.valueText,
        location := if el.locationText = "" then site.country else el.locationText,
        status := TenderStatus.OPEN,
        service_areas_matched := [],
        keywords_matched := [],
        opportunity_score := OpportunityScore.LOW,
        ai_analysis := "",
        recommended_team := [],
        competition_level := "Medium",
        win_probability := "Medium",
        submission_requirements := [],
        contact_information := [],
        documents_available := [],
        timestamp := now }

/-- A strictly monotone numeric key for `datetime` comparison over valid
component ranges: `closing_date < now` is `dtKey closing < dtKey now`. -/
def dtKey (d : DT) : Nat :=
  (((((d.year * 13 + d.month) * 32 + d.day) * 24 + d.hour) * 60 + d.minute) * 60 + d.second)
    * 1000000 + d.microsecond

/-- One iteration of every scraper's result loop: extract the element; keep
the record if extraction produced one and its title-plus-description text
contains a relevant keyword. -/
def scrapeStep (site : TenderSite) (now : DT) (keywords : List String)
    (acc : List TenderOpportunity) (el : RawElement) : List TenderOpportunity :=
  match extractTenderInfo el site now with
  | some o =>
      if containsRelevantKeywords (o.title ++ " " ++ o.description) keywords then
        acc ++ [o]
      else acc
  | none => acc

/-- The extract-then-filter loop shared by the four scrapers: process at
most `cap` listing elements (`tender_cards[:20]`, `proc_items[:15]`, ...). -/
def scrapePipeline (cap : Nat) (site : TenderSite) (now : DT) (keywords : List String)
    (elements : List RawElement) : List TenderOpportunity :=
  (elements.take cap).foldl (scrapeStep site now keywords) []

/-- `TenderScraper._scrape_ungm`: first 20 results. -/
def scrapeUngm : TenderSite → DT → List String → List RawElement → List TenderOpportunity :=
  scrapePipeline 20

/-- `TenderScraper._scrape_worldbank`: first 15 results. -/
def scrapeWorldbank : TenderSite → DT → List String → List RawElement → List TenderOpportunity :=
  scrapePipeline 15

/-- `TenderScraper._scrape_ted`: first 15 results. -/
def scrapeTed : TenderSite → DT → List String → List RawElement → List TenderOpportunity :=
  scrapePipeline 15

/-- `TenderScraper._generic_scrape`: first 20 results. -/
def genericScrape : TenderSite → DT → List String → List RawElement → List TenderOpportunity :=
  scrapePipeline 20

/-- `TenderScraper.scrape_tender_site`: dispatch on the site's display name
(`site.name.lower() in ['ungm', 'united nations']`, then
`['world bank', 'worldbank']`, then `'ted' in site.name.lower() or 'europa'
in site.url`), falling back to the generic scraper. -/
def scrapeTenderSite (site : TenderSite) (now : DT) (keywords : List String)
    (elements : List RawElement) : List TenderOpportunity :=
  if ["ungm", "united nations"].contains (strLower site.name) then
    scrapeUngm site now keywords elements
  else if ["world bank", "worldbank"].contains (strLower site.name) then
    scrapeWorldbank site now keywords elements
  else if strIn "ted" (strLower site.name) || strIn "europa" site.url then
    scrapeTed site now keywords elements
  else
    genericScrape site now keywords elements

/-- What one site contributes to the scan result (specification-side
reformulation of `monitorStep`). -/
def siteContribution (s : TenderSite × SiteOutcome) : List TenderOpportunity :=
  if s.1.active = false then []
  else
    match s.2 with
    | Except.ok payload => siteQualifying payload
    | Except.error _ => []

/-- The qualifying records of one non-failing active site, `none` for an
inactive or failing site. -/
def siteFMap (s : TenderSite × SiteOutcome) : Option (List TenderOpportunity) :=
  if s.1.active = false then none
  else
    match s.2 with
    | Except.ok payload => some (siteQualifying payload)
    | Except.error _ => none

/-- The analyzed (scored) records of one non-failing active site, before the
relevance filter. -/
def scoredSiteRecords (s : TenderSite × SiteOutcome) : Option (List TenderOpportunity) :=
  if s.1.active = false then none
  else
    match s.2 with
    | Except.ok payload => some (payload.map (fun t => analyzeRecord t.1 t.2.1 t.2.2))
    | Except.error _ => none

/-- All records the scan extracted and scored, across the non-failing active
sites, in registry order. -/
def scoredRecords (sites : List (TenderSite × SiteOutcome)) : List TenderOpportunity :=
  (sites.filterMap scoredSiteRecords).flatten

end TIP

/-! ## Theorems -/

namespace TIP

/-- **C1.** The scoring step computes `keyword_score = min(n*10, 60)` and
`total = keyword_score + c` for a context score `c ∈ [0,40]`, and buckets the
total with inclusive lower bounds (≥80 HIGH, ≥50 MEDIUM, ≥20 LOW, else
MINIMAL); boundary totals 79/80/49/50/19/20 bucket as
MEDIUM/HIGH/LOW/MEDIUM/MINIMAL/LOW; `keyword_score` is non-decreasing in the
matched-keyword count and saturates at 60 for 6 or more matches. -/
theorem score_bucketing_spec (ks : List String) (c : Int) (h0 : 0 ≤ c) (h1 : c ≤ 40) :
    (calcOpportunityScore ks (some c)
        = bucketTotal (min ((ks.length : Int) * 10) 60 + c))
    ∧ (∀ t : Int,
        (bucketTotal t = .HIGH ↔ 80 ≤ t)
        ∧ (bucketTotal t = .MEDIUM ↔ 50 ≤ t ∧ t < 80)
        ∧ (bucketTotal t = .LOW ↔ 20 ≤ t ∧ t < 50)
        ∧ (bucketTotal t = .MINIMAL ↔ t < 20))
    ∧ bucketTotal 79 = .MEDIUM ∧ bucketTotal 80 = .HIGH
    ∧ bucketTotal 49 = .LOW ∧ bucketTotal 50 = .MEDIUM
    ∧ bucketTotal 19 = .MINIMAL ∧ bucketTotal 20 = .LOW
    ∧ (∀ m n : Nat, m ≤ n → keywordScore m ≤ keywordScore n)
    ∧ (∀ n : Nat, 6 ≤ n → keywordScore n = 60) := by
  refine ⟨?_, ?_, by decide, by decide, by decide, by decide, by decide, by decide, ?_, ?_⟩
  · have hc : contextScore (some c) = c := by
      show clampContext c = c
      unfold clampContext
      omega
    unfold calcOpportunityScore
    rw [hc]
    rfl
  · intro t
    unfold bucketTotal
    split_ifs with hA hB hC <;> refine ⟨?_, ?_, ?_, ?_⟩ <;> (simp; omega)
  · intro m n hmn
    unfold keywordScore
    have : (m : Int) * 10 ≤ (n : Int) * 10 := by
      have : (m : Int) ≤ (n : Int) := by exact_mod_cast hmn
      omega
    omega
  · intro n hn
    unfold keywordScore
    have : (6 : Int) ≤ (n : Int) := by exact_mod_cast hn
    omega

/-- Witness for C1 at 2 matched keywords and context score 25. -/
theorem score_bucketing_spec_witness :
    calcOpportunityScore ["pension", "ESG"] (some 25)
      = bucketTotal (min ((2 : Int) * 10) 60 + 25) :=
  (score_bucketing_spec ["pension", "ESG"] 25 (by decide) (by decide)).1

/-- Appending strings concatenates their character lists. -/
theorem strToList_append (a b : String) : (a ++ b).toList = a.toList ++ b.toList := by
  cases a; cases b; rfl

/-- Unfolding equation for `joinCommaSpace` on a list of two or more parts. -/
theorem joinCommaSpace_cons_cons (x y : String) (ys : List String) :
    joinCommaSpace (x :: y :: ys) = x ++ ", " ++ joinCommaSpace (y :: ys) := rfl

/-- Every member of a string list is an infix (as a character list) of the
`", "`-join of the list. -/
theorem mem_infix_joinCommaSpace :
    ∀ (l : List String) (s : String), s ∈ l → s.toList <:+: (joinCommaSpace l).toList := by
  intro l
  induction l with
  | nil => intro s hs; cases hs
  | cons x xs ih =>
      intro s hs
      rcases List.mem_cons.mp hs with rfl | hs
      · cases xs with
        | nil => exact List.infix_rfl
        | cons y ys =>
            rw [joinCommaSpace_cons_cons, strToList_append, strToList_append]
            exact ((List.prefix_append _ _).trans (List.prefix_append _ _)).isInfix
      · cases xs with
        | nil => cases hs
        | cons y ys =>
            obtain ⟨u, v, huv⟩ := ih s hs
            rw [joinCommaSpace_cons_cons, strToList_append]
            exact ⟨(x ++ ", ").toList ++ u, v, by rw [← huv]; simp⟩

/-- **C4.** If the external context-scoring call fails, the scoring step
substitutes the fixed default context score 20; a successful context result
is clamped into the inclusive range `[0, 40]`; if the external
narrative-generation call fails, the analysis step returns the fixed
non-empty fallback string, which names every matched service area
(each area's display name occurs in it).  All the involved functions are
total, so classification always completes. -/
theorem context_and_narrative_fallback (areas : List ServiceArea) (x : Int) :
    contextScore none = 20
    ∧ (0 ≤ contextScore (some x) ∧ contextScore (some x) ≤ 40)
    ∧ generateAiAnalysis none areas = fallbackAnalysis areas
    ∧ fallbackAnalysis areas ≠ ""
    ∧ (∀ a ∈ areas, (areaDisplay a).toList <:+: (generateAiAnalysis none areas).toList) := by
  refine ⟨rfl, ?_, rfl, ?_, ?_⟩
  · show (0 ≤ clampContext x ∧ clampContext x ≤ 40)
    unfold clampContext
    omega
  · intro h
    have h2 : (fallbackAnalysis areas).toList.length = 0 := by rw [h]; rfl
    unfold fallbackAnalysis at h2
    rw [strToList_append, List.length_append] at h2
    have h3 : 0 < ("Analysis error occurred. Manual review required. Matched areas: " : String).toList.length := by decide
    omega
  · intro a ha
    show (areaDisplay a).toList <:+: (fallbackAnalysis areas).toList
    unfold fallbackAnalysis serviceAreasText
    rw [strToList_append]
    have h2 := mem_infix_joinCommaSpace (areas.map areaDisplay) (areaDisplay a)
      (List.mem_map_of_mem areaDisplay ha)
    obtain ⟨u, v, huv⟩ := h2
    exact ⟨("Analysis error occurred. Manual review required. Matched areas: " : String).toList ++ u,
      v, by rw [← huv]; simp⟩

/-- Folding the keyword-collecting loop body over a list appends exactly the
elements passing the test, in order. -/
theorem foldl_append_filter {α : Type} (p : α → Bool) :
    ∀ (l : List α) (acc : List α),
      l.foldl (fun acc kw => if p kw then acc ++ [kw] else acc) acc = acc ++ l.filter p := by
  intro l
  induction l with
  | nil => intro acc; simp
  | cons x xs ih =>
      intro acc
      simp only [List.foldl_cons, List.filter_cons]
      by_cases h : p x <;> simp [h, ih]

/-- `_find_keywords` returns the sub-sequence of `all_keywords` whose
lowercase form occurs in the lowercased text. -/
theorem findKeywords_eq_filter (text : String) :
    findKeywords text = allKeywords.filter (matchesKeyword (strLower text)) := by
  unfold findKeywords
  rw [foldl_append_filter]
  simp

/-- The keyword strings that occur twice in the flattened `all_keywords` list
(each belongs to two category lists). -/
def doubledKeywords : List String := ["actuarial valuation", "governance", "risk governance"]

/-- **C8 counterexample.** The input text "actuarial valuation" produces a
`keywords_matched` sequence with a duplicate ("actuarial valuation" is listed
both under Pension Consulting and under Actuarial Services), refuting the
claim that the sequence never contains duplicate keyword strings. -/
theorem find_keywords_duplicate : ¬ (findKeywords "actuarial valuation").Nodup := by
  decide

/-- **C8 (amended).** Each keyword occurs in `keywords_matched` once per
occurrence in the flattened taxonomy list (so matched keywords occurring in
two category lists appear twice); the sequence is duplicate-free whenever
none of the three doubled keywords ("actuarial valuation", "governance",
"risk governance") matches the text. -/
theorem keywords_matched_count (text : String) :
    (∀ kw, (findKeywords text).count kw
        = if matchesKeyword (strLower text) kw then allKeywords.count kw else 0)
    ∧ ((∀ d ∈ doubledKeywords, matchesKeyword (strLower text) d = false) →
        (findKeywords text).Nodup) := by
  constructor
  · intro kw
    rw [findKeywords_eq_filter]
    by_cases h : matchesKeyword (strLower text) kw
    · rw [if_pos h, List.count_filter h]
    · rw [if_neg h, List.count_eq_zero]
      intro hmem
      exact h (List.mem_filter.mp hmem).2
  · intro hd
    rw [findKeywords_eq_filter]
    have hnd : (allKeywords.filter (fun k => !(doubledKeywords.contains k))).Nodup := by decide
    have heq : allKeywords.filter (matchesKeyword (strLower text))
        = allKeywords.filter
            (fun k => matchesKeyword (strLower text) k && !(doubledKeywords.contains k)) := by
      apply List.filter_congr
      intro k _
      by_cases hk : matchesKeyword (strLower text) k
      · have hmemd : k ∉ doubledKeywords := by
          intro hmem
          rw [hd k hmem] at hk
          exact absurd hk (by simp)
        have hcon : doubledKeywords.contains k = false := by
          rcases hcb : doubledKeywords.contains k
          · rfl
          · exact absurd (List.elem_iff.mp hcb) hmemd
        simp [hk, hcon]
        exact hmemd
      · simp [hk]
    rw [heq, ← List.filter_filter]
    exact hnd.filter _

/-- Witness for C8's amended theorem: the input "pension" matches only the
keyword "pension", and the result has no duplicates. -/
theorem keywords_matched_count_witness : (findKeywords "pension").Nodup :=
  (keywords_matched_count "pension").2 (by decide)

/-- Text of the end-to-end scenario's listing. -/
def rfpText : String :=
  "Request for Proposal: Actuarial valuation and IFRS 17 implementation support"

/-- Title of the end-to-end scenario's listing. -/
def rfpTitle : String := "RFP – Actuarial Services"

/-- **C6 counterexample.** On the scenario input, the relevance scorer also
matches "actuarial services" (it occurs in the title), and "actuarial
valuation" is matched twice (it is listed in two taxonomy categories), so the
matched-keyword count is 5 and `keyword_score = 50`, not 30 as claimed. -/
theorem rfp_keyword_score_not_30 :
    "actuarial services" ∈ findKeywords (rfpText ++ " " ++ rfpTitle)
    ∧ keywordScore (findKeywords (rfpText ++ " " ++ rfpTitle)).length ≠ 30 := by
  have hfk : findKeywords (rfpText ++ " " ++ rfpTitle)
      = ["IFRS 17", "actuarial valuation", "actuarial", "actuarial services",
         "actuarial valuation"] := by decide
  rw [hfk]
  exact ⟨by decide, by decide⟩

/-- **C6 (amended).** On the scenario input the matched keyword list is
`["IFRS 17", "actuarial valuation", "actuarial", "actuarial services",
"actuarial valuation"]` (the set {"actuarial", "actuarial valuation",
"actuarial services", "IFRS 17"}, with "actuarial valuation" listed twice);
the matched service areas include Actuarial Services and IFRS17;
`keyword_score = 50`; and with a stubbed context score of 25 the total is 75
and the bucket is MEDIUM. -/
theorem rfp_end_to_end :
    findKeywords (rfpText ++ " " ++ rfpTitle)
      = ["IFRS 17", "actuarial valuation", "actuarial", "actuarial services",
         "actuarial valuation"]
    ∧ ServiceArea.ACTUARIAL_SERVICES
        ∈ identifyServiceAreas (findKeywords (rfpText ++ " " ++ rfpTitle))
    ∧ ServiceArea.IFRS17
        ∈ identifyServiceAreas (findKeywords (rfpText ++ " " ++ rfpTitle))
    ∧ keywordScore (findKeywords (rfpText ++ " " ++ rfpTitle)).length = 50
    ∧ keywordScore (findKeywords (rfpText ++ " " ++ rfpTitle)).length
        + contextScore (some 25) = 75
    ∧ calcOpportunityScore (findKeywords (rfpText ++ " " ++ rfpTitle)) (some 25)
        = OpportunityScore.MEDIUM := by
  have hfk : findKeywords (rfpText ++ " " ++ rfpTitle)
      = ["IFRS 17", "actuarial valuation", "actuarial", "actuarial services",
         "actuarial valuation"] := by decide
  rw [hfk]
  exact ⟨rfl, by decide, by decide, by decide, by decide, by decide⟩

/-- `TenderStatus(str(s))` always raises: `str` on an enum member yields
`"TenderStatus.X"`, which is not any member's `.value`. -/
theorem statusOfValue_pyStr (s : TenderStatus) : statusOfValue (pyStrStatus s) = none := by
  cases s <;> rfl

/-- **C2.** The save/load round trip loses every record: `_save_opportunity`
serializes enum fields with `json.dump`'s `default=str` fallback (producing
`"TenderStatus.OPEN"` and the like), while `_load_recent_opportunities`
converts with `TenderStatus(value)`, which expects the member value
(`"open"`); the conversion raises for every saved record, so the loader
skips it and a reload over any date range returns nothing — the reloaded
record never equals the saved one. -/
theorem save_load_roundtrip_fails (o : TenderOpportunity) (dateStrs : List String) :
    loadOpportunity (serializeOpp o) = none
    ∧ loadRecentOpportunities [(saveFilename o, serializeOpp o)] dateStrs = [] := by
  have h1 : loadOpportunity (serializeOpp o) = none := by
    simp [loadOpportunity, serializeOpp, statusOfValue_pyStr]
  refine ⟨h1, ?_⟩
  have h2 : ∀ d, loadFilesForDate [(saveFilename o, serializeOpp o)] d = [] := by
    intro d
    simp [loadFilesForDate, h1]
  simp [loadRecentOpportunities, h2]

/-- Witness for C4 at a concrete service-area list and raw context value. -/
theorem context_and_narrative_fallback_witness :
    (0 ≤ contextScore (some 55) ∧ contextScore (some 55) ≤ 40)
    ∧ ((areaDisplay ServiceArea.IFRS17).toList
        <:+: (generateAiAnalysis none [ServiceArea.IFRS17, ServiceArea.ERM]).toList) :=
  ⟨(context_and_narrative_fallback [ServiceArea.IFRS17, ServiceArea.ERM] 55).2.1,
   (context_and_narrative_fallback [ServiceArea.IFRS17, ServiceArea.ERM] 55).2.2.2.2
     ServiceArea.IFRS17 (by decide)⟩

/-! ### Monitor lemmas and C3/C5/C7 -/

/-- One monitor-loop step appends exactly the site's contribution. -/
theorem monitorStep_eq (acc : List TenderOpportunity) (s : TenderSite × SiteOutcome) :
    monitorStep acc s = acc ++ siteContribution s := by
  unfold monitorStep siteContribution
  by_cases h : s.1.active = false
  · simp [h]
  · cases h2 : s.2 <;> simp [h]

/-- The monitor's fold collects the per-site contributions in order. -/
theorem monitor_foldl_acc :
    ∀ (sites : List (TenderSite × SiteOutcome)) (acc : List TenderOpportunity),
      sites.foldl monitorStep acc = acc ++ (sites.map siteContribution).flatten := by
  intro sites
  induction sites with
  | nil => intro acc; simp
  | cons x xs ih =>
      intro acc
      simp only [List.foldl_cons, List.map_cons, List.flatten_cons]
      rw [monitorStep_eq, ih, List.append_assoc]

/-- `monitor_all_sites` returns the concatenation of the per-site
contributions in registry order. -/
theorem monitorAllSites_eq (sites : List (TenderSite × SiteOutcome)) :
    monitorAllSites sites = (sites.map siteContribution).flatten := by
  unfold monitorAllSites
  rw [monitor_foldl_acc]
  simp

/-- Flattening a map equals flattening a `filterMap` that returns `none`
exactly where the map returns `[]`. -/
theorem flatten_map_eq_flatten_filterMap {α β : Type} (f : α → List β)
    (g : α → Option (List β)) (hfg : ∀ x, f x = (g x).getD []) :
    ∀ l : List α, (l.map f).flatten = (l.filterMap g).flatten := by
  intro l
  induction l with
  | nil => rfl
  | cons x xs ih =>
      simp only [List.map_cons, List.filterMap_cons, List.flatten_cons]
      rw [hfg x]
      cases hg : g x
      · simp [ih]
      · simp [ih]

/-- A `filterMap` equals mapping `h` over another `filterMap` when the two
option-valued functions agree up to `h`. -/
theorem filterMap_eq_map_filterMap {α β γ : Type} (g : α → Option β)
    (g2 : α → Option γ) (h : γ → β) (hgg : ∀ x, g x = (g2 x).map h) :
    ∀ l : List α, l.filterMap g = (l.filterMap g2).map h := by
  intro l
  induction l with
  | nil => rfl
  | cons x xs ih =>
      simp only [List.filterMap_cons]
      rw [hgg x]
      cases hg : g2 x
      · simp [ih]
      · simp [ih]

/-- A site's contribution is its `siteFMap` value, defaulting to nothing. -/
theorem siteContribution_eq_getD (s : TenderSite × SiteOutcome) :
    siteContribution s = (siteFMap s).getD [] := by
  unfold siteContribution siteFMap
  by_cases h : s.1.active = false
  · simp [h]
  · cases h2 : s.2 <;> simp [h]

/-- Dropping the inactive and failing sites before flattening changes
nothing: they contribute empty lists. -/
theorem flatten_contributions_eq_filterMap (sites : List (TenderSite × SiteOutcome)) :
    (sites.map siteContribution).flatten = (sites.filterMap siteFMap).flatten :=
  flatten_map_eq_flatten_filterMap siteContribution siteFMap siteContribution_eq_getD sites

/-- **C3.** A full scan never fails on a per-site issue: it returns exactly
the concatenation, in registry order, of the qualifying records of the
non-failing active sites; a failing site contributes zero records, and
removing a failing site from the registry changes neither the returned list
nor the persisted files (so nothing from a failed site is persisted). -/
theorem monitor_site_isolation (sites pre post : List (TenderSite × SiteOutcome))
    (site : TenderSite) (e : String)
    (hsplit : sites = pre ++ (site, Except.error e) :: post) :
    monitorAllSites sites = (sites.filterMap siteFMap).flatten
    ∧ monitorAllSites sites = monitorAllSites (pre ++ post)
    ∧ runScan sites = runScan (pre ++ post) := by
  have h1 : ∀ l, monitorAllSites l = (l.filterMap siteFMap).flatten := by
    intro l
    rw [monitorAllSites_eq, flatten_contributions_eq_filterMap]
  have h2 : monitorAllSites sites = monitorAllSites (pre ++ post) := by
    rw [h1, h1, hsplit]
    simp only [List.filterMap_append, List.filterMap_cons]
    have : siteFMap (site, Except.error e) = none := by
      unfold siteFMap
      by_cases h : site.active = false <;> simp [h]
    rw [this]
  refine ⟨h1 sites, h2, ?_⟩
  unfold runScan
  rw [h2]

/-- Concrete record: no taxonomy keyword occurs in its text. -/
def exRecBase : TenderOpportunity where
  title := "Road construction notice"
  description := "Building works tender"
  tender_id := "T1"
  source_site := "Example"
  url := "https://example.org/t1"
  client_organization := "Example"
  publication_date := ⟨2026, 10, 12, 0, 0, 0, 0⟩
  closing_date := none
  estimated_value := ""
  location := "X"
  status := .OPEN
  service_areas_matched := []
  keywords_matched := []
  opportunity_score := .LOW
  ai_analysis := ""
  recommended_team := []
  competition_level := "Medium"
  win_probability := "Medium"
  submission_requirements := []
  contact_information := []
  documents_available := []
  timestamp := ⟨2026, 10, 12, 0, 0, 0, 0⟩

/-- Concrete record: rich in pension/actuarial taxonomy keywords. -/
def pensionRec : TenderOpportunity :=
  { exRecBase with
      title := "Pension scheme actuarial audit"
      description := "Actuarial valuation of the pension fund"
      tender_id := "T2" }

/-- A monitored example site. -/
def exSiteA : TenderSite where
  url := "https://a.example.org"
  name := "Alpha"
  country := "X"
  sector := "government"
  search_params := []

/-- A second monitored example site (the one that will fail). -/
def exSiteB : TenderSite := { exSiteA with url := "https://b.example.org", name := "Beta" }

/-- A third monitored example site. -/
def exSiteC : TenderSite := { exSiteA with url := "https://c.example.org", name := "Gamma" }

/-- Witness for C3: with three sites of which the second raises, the scan
equals the scan over the first and third sites alone. -/
theorem monitor_site_isolation_witness :
    monitorAllSites
        [(exSiteA, Except.ok [(pensionRec, some 40, some "strong fit")]),
         (exSiteB, Except.error "FetchError"),
         (exSiteC, Except.ok [(exRecBase, some 0, some "no fit")])]
      = monitorAllSites
          ([(exSiteA, Except.ok [(pensionRec, some 40, some "strong fit")])]
            ++ [(exSiteC, Except.ok [(exRecBase, some 0, some "no fit")])]) :=
  (monitor_site_isolation _
      [(exSiteA, Except.ok [(pensionRec, some 40, some "strong fit")])]
      [(exSiteC, Except.ok [(exRecBase, some 0, some "no fit")])]
      exSiteB "FetchError" rfl).2.1

/-- A fold appending `g` of each element equals the map of `g`. -/
theorem foldl_append_map {α β : Type} (g : α → β) :
    ∀ (l : List α) (acc : List β),
      l.foldl (fun acc o => acc ++ [g o]) acc = acc ++ l.map g := by
  intro l
  induction l with
  | nil => intro acc; simp
  | cons x xs ih => intro acc; simp [ih]

/-- Filtering a flattened list filters each part. -/
theorem filter_flatten {α : Type} (p : α → Bool) :
    ∀ (l : List (List α)), l.flatten.filter p = (l.map (List.filter p)).flatten := by
  intro l
  induction l with
  | nil => rfl
  | cons x xs ih => simp [List.filter_append, ih]

/-- A site's qualifying records are the relevance filter of its scored
records. -/
theorem siteFMap_eq_map_filter (s : TenderSite × SiteOutcome) :
    siteFMap s = (scoredSiteRecords s).map (List.filter isRelevantScore) := by
  unfold siteFMap scoredSiteRecords
  by_cases h : s.1.active = false
  · simp [h]
  · cases h2 : s.2 <;> simp [h, siteQualifying]

/-- `monitor_all_sites` returns exactly the MEDIUM/HIGH scored records. -/
theorem monitor_eq_filter_scored (sites : List (TenderSite × SiteOutcome)) :
    monitorAllSites sites = (scoredRecords sites).filter isRelevantScore := by
  rw [monitorAllSites_eq, flatten_contributions_eq_filterMap]
  unfold scoredRecords
  rw [filter_flatten]
  congr 1
  exact filterMap_eq_map_filterMap siteFMap scoredSiteRecords
    (List.filter isRelevantScore) siteFMap_eq_map_filter sites

/-- **C5.** The scan returns exactly the extracted-and-scored records whose
bucketed score is MEDIUM or HIGH; the persisted files are exactly the
returned records' files (each returned record is saved); a scored record
bucketed LOW or MINIMAL is neither returned nor among the origins of any
persisted file. -/
theorem monitor_filter_and_persist (sites : List (TenderSite × SiteOutcome)) :
    monitorAllSites sites = (scoredRecords sites).filter isRelevantScore
    ∧ (runScan sites).2
        = (monitorAllSites sites).map (fun o => (saveFilename o, serializeOpp o))
    ∧ (∀ o, o ∈ scoredRecords sites →
        (o.opportunity_score = OpportunityScore.LOW
          ∨ o.opportunity_score = OpportunityScore.MINIMAL) →
        o ∉ monitorAllSites sites)
    ∧ (∀ entry ∈ (runScan sites).2,
        ∃ r ∈ monitorAllSites sites, entry = (saveFilename r, serializeOpp r)) := by
  have h1 := monitor_eq_filter_scored sites
  have h2 : (runScan sites).2
      = (monitorAllSites sites).map (fun o => (saveFilename o, serializeOpp o)) := by
    show List.foldl (fun st o => st ++ [(saveFilename o, serializeOpp o)]) []
        (monitorAllSites sites) = _
    rw [foldl_append_map]
    simp
  refine ⟨h1, h2, ?_, ?_⟩
  · intro o _ hscore hcontra
    rw [h1] at hcontra
    have hrel := (List.mem_filter.mp hcontra).2
    rcases hscore with h | h <;> rw [isRelevantScore, h] at hrel <;> simp at hrel
  · intro entry hentry
    rw [h2] at hentry
    obtain ⟨r, hr, hre⟩ := List.mem_map.mp hentry
    exact ⟨r, hr, hre.symm⟩

/-- The analyzed form of the keyword-free example record (scores MINIMAL). -/
def exLowScored : TenderOpportunity := analyzeRecord exRecBase (some 0) (some "no fit")

/-- Witness for C5: the MINIMAL-scored example record is scored by the scan
of its site but not returned. -/
theorem monitor_filter_and_persist_witness :
    exLowScored ∉ monitorAllSites [(exSiteA, Except.ok [(exRecBase, some 0, some "no fit")])] :=
  (monitor_filter_and_persist [(exSiteA, Except.ok [(exRecBase, some 0, some "no fit")])]).2.2.1
    exLowScored (by decide) (by decide)

/-- Membership in the area-collecting fold of `_identify_service_areas`:
an area is collected exactly when it was already in the accumulator or it
occurs in the remaining list and passes the test. -/
theorem mem_foldl_addArea (test : ServiceArea → Bool) :
    ∀ (L acc : List ServiceArea) (a : ServiceArea),
      (a ∈ L.foldl (fun acc area =>
          if test area then (if acc.contains area then acc else acc ++ [area]) else acc) acc
        ↔ a ∈ acc ∨ (a ∈ L ∧ test a = true)) := by
  intro L
  induction L with
  | nil => intro acc a; simp
  | cons x xs ih =>
      intro acc a
      simp only [List.foldl_cons]
      by_cases ht : test x
      · by_cases hc : acc.contains x
        · rw [if_pos ht, if_pos hc, ih]
          constructor
          · rintro (h | ⟨hxs, hta⟩)
            · exact Or.inl h
            · exact Or.inr ⟨List.mem_cons_of_mem x hxs, hta⟩
          · rintro (h | ⟨hmem, hta⟩)
            · exact Or.inl h
            · rcases List.mem_cons.mp hmem with rfl | hxs
              · exact Or.inl (List.elem_iff.mp hc)
              · exact Or.inr ⟨hxs, hta⟩
        · rw [if_pos ht, if_neg hc, ih]
          constructor
          · rintro (h | ⟨hxs, hta⟩)
            · rcases List.mem_append.mp h with h2 | h2
              · exact Or.inl h2
              · have h3 := List.mem_singleton.mp h2
                subst h3
                exact Or.inr ⟨List.mem_cons_self _ _, ht⟩
            · exact Or.inr ⟨List.mem_cons_of_mem x hxs, hta⟩
          · rintro (h | ⟨hmem, hta⟩)
            · exact Or.inl (List.mem_append.mpr (Or.inl h))
            · rcases List.mem_cons.mp hmem with rfl | hxs
              · exact Or.inl (List.mem_append.mpr (Or.inr (List.mem_singleton.mpr rfl)))
              · exact Or.inr ⟨hxs, hta⟩
      · rw [if_neg ht, ih]
        constructor
        · rintro (h | ⟨hxs, hta⟩)
          · exact Or.inl h
          · exact Or.inr ⟨List.mem_cons_of_mem x hxs, hta⟩
        · rintro (h | ⟨hmem, hta⟩)
          · exact Or.inl h
          · rcases List.mem_cons.mp hmem with rfl | hxs
            · exact absurd hta ht
            · exact Or.inr ⟨hxs, hta⟩

/-- An area is identified exactly when some matched keyword lies in its
keyword list (every area is in the iteration list, so only the test
matters). -/
theorem mem_identifyServiceAreas (kws : List String) (a : ServiceArea) :
    a ∈ identifyServiceAreas kws
      ↔ kws.any (fun kw => (serviceKeywords a).contains kw) = true := by
  unfold identifyServiceAreas
  rw [mem_foldl_addArea]
  simp only [List.not_mem_nil, false_or]
  constructor
  · rintro ⟨_, h⟩
    exact h
  · intro h
    exact ⟨by cases a <;> decide, h⟩

/-- Pipeline-reachable record whose stored `keywords_matched` and
`service_areas_matched` diverge: the keyword "risk appetite" spans the
junction of `title + " " + description` but not of the analysis text. -/
def riskyRec : TenderOpportunity :=
  { exRecBase with title := "risk", description := "appetite", tender_id := "T3" }

/-- The analyzed form of `riskyRec`. -/
def riskyScored : TenderOpportunity := analyzeRecord riskyRec (some 25) (some "narrative")

/-- **C7 counterexample.** The record with title "risk" and description
"appetite" passes the scraper's relevance pre-filter (the monitor keyword
"Risk Appetite" occurs in `title + " " + description`), and after analysis
its `keywords_matched` is `["risk appetite"]` — a keyword of the known ERM
category — yet its `service_areas_matched` is empty, because the analysis
step matched keywords against `description + " " + title + " " + title`,
where no taxonomy keyword occurs.  This refutes the claim that
`service_areas_matched` is non-empty whenever `keywords_matched` contains a
keyword of a known category. -/
theorem areas_empty_despite_keywords :
    containsRelevantKeywords (riskyRec.title ++ " " ++ riskyRec.description)
        monitorAllKeywords = true
    ∧ riskyScored.keywords_matched = ["risk appetite"]
    ∧ "risk appetite" ∈ serviceKeywords ServiceArea.ERM
    ∧ riskyScored.service_areas_matched = [] := by
  refine ⟨by decide, by decide, by decide, by decide⟩

/-- **C7 (amended).** The invariant holds with respect to the analysis text:
with `K` the keywords found in `description + " " + title + " " + title`
(the text `analyze_tender` scans), `service_areas_matched` is non-empty
whenever `K` is non-empty (every taxonomy keyword belongs to a category),
and every identified service area is matched because of at least one keyword
in `K`.  The stored `keywords_matched` field is computed from
`title + " " + description` and can differ from `K`. -/
theorem service_area_mapping (o : TenderOpportunity) (ctx : Option Int) (narr : Option String) :
    (findKeywords (o.description ++ " " ++ o.title ++ " " ++ o.title) ≠ [] →
      (analyzeRecord o ctx narr).service_areas_matched ≠ [])
    ∧ (∀ a ∈ (analyzeRecord o ctx narr).service_areas_matched,
        ∃ kw ∈ findKeywords (o.description ++ " " ++ o.title ++ " " ++ o.title),
          kw ∈ serviceKeywords a) := by
  have harea : (analyzeRecord o ctx narr).service_areas_matched
      = identifyServiceAreas
          (findKeywords (o.description ++ " " ++ o.title ++ " " ++ o.title)) := rfl
  constructor
  · intro hK hcontra
    rw [harea] at hcontra
    obtain ⟨k, hk⟩ := List.exists_mem_of_ne_nil _ hK
    have hk_all : k ∈ allKeywords := by
      rw [findKeywords_eq_filter] at hk
      exact (List.mem_filter.mp hk).1
    have hcat : ∃ a2, k ∈ serviceKeywords a2 := by
      unfold allKeywords at hk_all
      obtain ⟨l, hl, hkl⟩ := List.mem_flatten.mp hk_all
      obtain ⟨a2, _, rfl⟩ := List.mem_map.mp hl
      exact ⟨a2, hkl⟩
    obtain ⟨a2, ha2⟩ := hcat
    have hmem : a2 ∈ identifyServiceAreas
        (findKeywords (o.description ++ " " ++ o.title ++ " " ++ o.title)) := by
      rw [mem_identifyServiceAreas]
      exact List.any_eq_true.mpr ⟨k, hk, List.elem_iff.mpr ha2⟩
    rw [hcontra] at hmem
    cases hmem
  · intro a ha
    rw [harea, mem_identifyServiceAreas] at ha
    obtain ⟨kw, hkw, hc⟩ := List.any_eq_true.mp ha
    exact ⟨kw, hkw, List.elem_iff.mp hc⟩

/-- Witness for C7's amended theorem at the pension example record. -/
theorem service_area_mapping_witness :
    (analyzeRecord pensionRec (some 25) (some "ok")).service_areas_matched ≠ []
    ∧ ∃ kw ∈ findKeywords
          (pensionRec.description ++ " " ++ pensionRec.title ++ " " ++ pensionRec.title),
        kw ∈ serviceKeywords ServiceArea.ACTUARIAL_SERVICES :=
  ⟨(service_area_mapping pensionRec (some 25) (some "ok")).1 (by decide),
   (service_area_mapping pensionRec (some 25) (some "ok")).2
     ServiceArea.ACTUARIAL_SERVICES (by decide)⟩

/-! ### Extraction status (C9) and scraper caps (C10) -/

/-- **C9 (code bug).** The extractor assigns `status = TenderStatus.OPEN`
unconditionally (its own comment says "Will be determined later"), and no
later pipeline step updates it — `analyzeRecord` leaves the field untouched.
Even a record whose `closing_date` lies strictly before the current time
keeps status OPEN and is never CLOSED, contradicting the claimed lifecycle
rule. -/
theorem status_never_derived (el : RawElement) (site : TenderSite) (now : DT)
    (o : TenderOpportunity) (cd : DT)
    (hex : extractTenderInfo el site now = some o)
    (_hcd : o.closing_date = some cd) (_hlt : dtKey cd < dtKey now)
    (ctx : Option Int) (narr : Option String) :
    o.status = TenderStatus.OPEN
    ∧ (analyzeRecord o ctx narr).status = TenderStatus.OPEN
    ∧ o.status ≠ TenderStatus.CLOSED := by
  have hst : o.status = TenderStatus.OPEN := by
    unfold extractTenderInfo at hex
    by_cases h : el.titleText = ""
    · rw [if_pos h] at hex
      cases hex
    · rw [if_neg h] at hex
      cases hex
      rfl
  have hkeep : (analyzeRecord o ctx narr).status = o.status := rfl
  refine ⟨hst, by rw [hkeep, hst], by rw [hst]; decide⟩

/-- A listing element whose closing date is long past. -/
def pastElement : RawElement where
  titleText := "Old actuarial tender"
  descriptionText := "closed long ago"
  idText := "OLD1"
  closingDate := some ⟨2020, 1, 1, 0, 0, 0, 0⟩
  valueText := ""
  locationText := ""
  linkHref := none
  titleHash := 12345

/-- The scan instant used in the C9 witness. -/
def exNow : DT := ⟨2026, 10, 12, 9, 30, 0, 0⟩

/-- The record `pastElement` extracts to at `exNow`. -/
def pastRec : TenderOpportunity where
  title := "Old actuarial tender"
  description := "closed long ago"
  tender_id := "OLD1"
  source_site := "Alpha"
  url := "https://a.example.org"
  client_organization := "Alpha"
  publication_date := exNow
  closing_date := some ⟨2020, 1, 1, 0, 0, 0, 0⟩
  estimated_value := ""
  location := "X"
  status := .OPEN
  service_areas_matched := []
  keywords_matched := []
  opportunity_score := .LOW
  ai_analysis := ""
  recommended_team := []
  competition_level := "Medium"
  win_probability := "Medium"
  submission_requirements := []
  contact_information := []
  documents_available := []
  timestamp := exNow

/-- Witness for C9 at a concrete element whose closing date (2020-01-01) is
before the scan instant (2026-10-12). -/
theorem status_never_derived_witness :
    pastRec.status = TenderStatus.OPEN ∧ pastRec.status ≠ TenderStatus.CLOSED :=
  ⟨(status_never_derived pastElement exSiteA exNow pastRec ⟨2020, 1, 1, 0, 0, 0, 0⟩
      (by decide) (by decide) (by decide) none none).1,
   (status_never_derived pastElement exSiteA exNow pastRec ⟨2020, 1, 1, 0, 0, 0, 0⟩
      (by decide) (by decide) (by decide) none none).2.2⟩

/-- One scrape step grows the accumulator by at most one record. -/
theorem scrapeStep_length (site : TenderSite) (now : DT) (keywords : List String)
    (acc : List TenderOpportunity) (el : RawElement) :
    (scrapeStep site now keywords acc el).length ≤ acc.length + 1 := by
  unfold scrapeStep
  cases extractTenderInfo el site now
  · simp
  · dsimp only
    split_ifs <;> simp

/-- The scrape loop grows the accumulator by at most one record per
element. -/
theorem scrape_foldl_length (site : TenderSite) (now : DT) (keywords : List String) :
    ∀ (l : List RawElement) (acc : List TenderOpportunity),
      (l.foldl (scrapeStep site now keywords) acc).length ≤ acc.length + l.length := by
  intro l
  induction l with
  | nil => intro acc; simp
  | cons x xs ih =>
      intro acc
      simp only [List.foldl_cons, List.length_cons]
      have h1 := ih (scrapeStep site now keywords acc x)
      have h2 := scrapeStep_length site now keywords acc x
      omega

/-- A scraper with cap `cap` returns at most `cap` records. -/
theorem scrapePipeline_length_le (cap : Nat) (site : TenderSite) (now : DT)
    (keywords : List String) (elements : List RawElement) :
    (scrapePipeline cap site now keywords elements).length ≤ cap := by
  unfold scrapePipeline
  refine le_trans (scrape_foldl_length site now keywords (elements.take cap) []) ?_
  simp only [List.length_nil, Nat.zero_add, List.length_take]
  omega

/-- A scraper with cap `cap ≤ n` only looks at the first `n` elements. -/
theorem scrapePipeline_take (cap n : Nat) (h : cap ≤ n) (site : TenderSite) (now : DT)
    (keywords : List String) (elements : List RawElement) :
    scrapePipeline cap site now keywords elements
      = scrapePipeline cap site now keywords (elements.take n) := by
  unfold scrapePipeline
  rw [List.take_take, Nat.min_eq_left h]

/-- **C10.** A single scan of any site processes at most the first 20
listing elements of the page — the result is unchanged if the page is
truncated to 20 elements, and contains at most 20 records; when the
dispatch selects the World Bank or TED scraper, the cap is 15. -/
theorem scrape_caps (site : TenderSite) (now : DT) (keywords : List String)
    (elements : List RawElement) :
    (scrapeTenderSite site now keywords elements).length ≤ 20
    ∧ scrapeTenderSite site now keywords elements
        = scrapeTenderSite site now keywords (elements.take 20)
    ∧ (¬ ["ungm", "united nations"].contains (strLower site.name) = true →
        ["world bank", "worldbank"].contains (strLower site.name) = true →
        (scrapeTenderSite site now keywords elements).length ≤ 15)
    ∧ (¬ ["ungm", "united nations"].contains (strLower site.name) = true →
        ¬ ["world bank", "worldbank"].contains (strLower site.name) = true →
        (strIn "ted" (strLower site.name) || strIn "europa" site.url) = true →
        (scrapeTenderSite site now keywords elements).length ≤ 15) := by
  unfold scrapeTenderSite scrapeUngm scrapeWorldbank scrapeTed genericScrape
  split_ifs with h1 h2 h3
  · exact ⟨scrapePipeline_length_le 20 site now keywords elements,
      scrapePipeline_take 20 20 (le_refl 20) site now keywords elements,
      fun hn _ => absurd h1 hn,
      fun hn _ _ => absurd h1 hn⟩
  · exact ⟨le_trans (scrapePipeline_length_le 15 site now keywords elements) (by omega),
      scrapePipeline_take 15 20 (by omega) site now keywords elements,
      fun _ _ => scrapePipeline_length_le 15 site now keywords elements,
      fun _ hn _ => absurd h2 hn⟩
  · exact ⟨le_trans (scrapePipeline_length_le 15 site now keywords elements) (by omega),
      scrapePipeline_take 15 20 (by omega) site now keywords elements,
      fun _ hw => absurd hw h2,
      fun _ _ _ => scrapePipeline_length_le 15 site now keywords elements⟩
  · exact ⟨scrapePipeline_length_le 20 site now keywords elements,
      scrapePipeline_take 20 20 (le_refl 20) site now keywords elements,
      fun _ hw => absurd hw h2,
      fun _ _ ht => absurd ht h3⟩

/-- A site whose lowered display name dispatches to the World Bank
scraper. -/
def wbSite : TenderSite := { exSiteA with name := "World Bank", url := "https://wb.example.org" }

/-- Witness for C10: a World-Bank-dispatched scrape of a 30-element page
yields at most 15 records. -/
theorem scrape_caps_witness :
    (scrapeTenderSite wbSite exNow [] (List.replicate 30 pastElement)).length ≤ 15 :=
  (scrape_caps wbSite exNow [] (List.replicate 30 pastElement)).2.2.1 (by decide) (by decide)

end TIP
